import Mathlib

/-!
Verification of the stage execution and routing engine of the chatbot
conversation graph.  The stage bodies (node1a1, node1a2, node2, node2retry,
node5retry, node8, node8retry, node9) are embedded from the TypeScript
source files.  Engine pieces that the stage files import but whose source is
not available (the retrying invoker `retryLlmCall` and the validator from
utils/retry-llm.ts, the state merge rules from state.ts, the graph wiring,
and the suspend/resume machinery) are modelled from the specification; each
such definition carries a doc comment saying so.
-/

namespace ChatbotSpec

/-- Role of a conversation message (SystemMessage / HumanMessage / AIMessage
of langchain; the system prompt is never stored in the state transcript). -/
inductive Role
  | human
  | ai
deriving DecidableEq, Repr

/-- One turn record of the transcript. -/
structure Message where
  role : Role
  content : String
deriving DecidableEq, Repr

/-- ConversationState (ChatState of state.ts).  The fields are exactly those
read or written by the stage files in src: the transcript, the read-only
identity fields, the derived facts and the per-stage routing flags. -/
structure ChatState where
  messages : List Message := []
  user_name : String := ""
  user_summary : String := ""
  archetype : String := ""
  time : String := ""
  mood : Option String := none
  commitment : Option String := none
  reminder_accepted : Option Bool := none
  reminder_frequency : Option String := none
  reminder_date : Option String := none
  proceed_node_2 : Option Bool := none
  proceed_node_5 : Option Bool := none
  proceed_node_8 : Option Bool := none
deriving DecidableEq, Repr

/-- The partial state update a stage returns (StageResult).  A `none` field
means the stage did not touch that field; `messages` is the delta to be
appended by the merge rule. -/
structure StageUpdate where
  messages : List Message := []
  mood : Option String := none
  commitment : Option String := none
  reminder_accepted : Option Bool := none
  reminder_frequency : Option String := none
  reminder_date : Option String := none
  proceed_node_2 : Option Bool := none
  proceed_node_5 : Option Bool := none
  proceed_node_8 : Option Bool := none
deriving DecidableEq, Repr

/-- Externally visible side effects a stage can perform, in execution
order: the transcript persist at stage entry and the derived-fact persists
(upsert-chat.ts, upsert-mood.ts, upsert-commitment.ts, upsert-reminder.ts). -/
inductive Effect
  | upsertChat
  | upsertMood (mood : String)
  | upsertCommitment (commitment : String)
  | upsertReminder (frequency : Option String) (date : Option String)
deriving DecidableEq, Repr

/-- Keep the update value when the stage provided one, the old value
otherwise. -/
def mergeOpt {β : Type} (u : Option β) (s : Option β) : Option β :=
  match u with
  | some v => some v
  | none => s

/-- Modelled from the spec: the state merge rule of state.ts is not under
src (only the stage files importing ChatState are).  Per section 3 of the
spec, `messages` is an append-only sequence (the reducer appends the stage
delta) and every other channel is last-value-wins when the stage update
provides a value. -/
def applyUpdate (s : ChatState) (u : StageUpdate) : ChatState :=
  { s with
    messages := s.messages ++ u.messages
    mood := mergeOpt u.mood s.mood
    commitment := mergeOpt u.commitment s.commitment
    reminder_accepted := mergeOpt u.reminder_accepted s.reminder_accepted
    reminder_frequency := mergeOpt u.reminder_frequency s.reminder_frequency
    reminder_date := mergeOpt u.reminder_date s.reminder_date
    proceed_node_2 := mergeOpt u.proceed_node_2 s.proceed_node_2
    proceed_node_5 := mergeOpt u.proceed_node_5 s.proceed_node_5
    proceed_node_8 := mergeOpt u.proceed_node_8 s.proceed_node_8 }

/-- The refineResponseWithHistory collaborator (refine-response.ts, an
external model call): abstracted as a function of the original response,
the transcript and the user name. -/
def Refiner : Type := String → List Message → String → String

/-- The identity refiner, used for concrete witnesses. -/
def idRefine : Refiner := fun r _ _ => r

/-! ## Structured model outputs, one per zod schema in the stage files -/

/-- Schema of node2 (2.ts): response, proceed, optional mood. -/
structure Node2Out where
  response : String
  proceed : Bool
  mood : Option String
deriving DecidableEq, Repr

/-- Schema of node2retry (2_retry.ts): response, proceed, mandatory mood
(the placeholder value while clarifying is the string "assessing"). -/
structure Node2RetryOut where
  response : String
  proceed : Bool
  mood : String
deriving DecidableEq, Repr

/-- Schema of node5retry: response and proceed only. -/
structure Node5RetryOut where
  response : String
  proceed : Bool
deriving DecidableEq, Repr

/-- Schema of node8 and node8retry: response, proceed, optional commitment. -/
structure Node8Out where
  response : String
  proceed : Bool
  commitment : Option String
deriving DecidableEq, Repr

/-- Schema of node9: response and the optional reminder fields. -/
structure Node9Out where
  response : String
  reminder_accepted : Option Bool
  reminder_frequency : Option String
  reminder_date : Option String
deriving DecidableEq, Repr

/-! ## Structured response validator (modelled from the spec) -/

/-- A raw JSON-ish field value, used to state typing of candidate replies. -/
inductive JsonVal
  | str (s : String)
  | bool (b : Bool)
  | num (n : Int)
deriving DecidableEq, Repr

/-- A raw candidate structured reply: each field may be absent or carry a
value of any type. -/
structure RawResponse where
  response : Option JsonVal
  proceed : Option JsonVal
  commitment : Option JsonVal
deriving DecidableEq, Repr

/-- Modelled from the spec: `validateStructuredResponse` of
utils/retry-llm.ts is not under src (only its import sites are).  Per
section 4.1 of the spec it accepts a value only if every required field is
present and correctly typed (a string `response`, a boolean `proceed`), and
rejects when an optional-but-semantically-required field is empty: a
commitment string that is empty while `proceed` signals a strong
commitment. -/
def validateStructuredResponse (r : RawResponse) : Bool :=
  match r.response, r.proceed with
  | some (JsonVal.str _), some (JsonVal.bool p) =>
    match r.commitment with
    | none => true
    | some (JsonVal.str c) => !(p && c == "")
    | some _ => false
  | _, _ => false

/-- Encoding of a typed node8 output as a raw candidate reply. -/
def encodeNode8Out (o : Node8Out) : RawResponse :=
  { response := some (JsonVal.str o.response)
    proceed := some (JsonVal.bool o.proceed)
    commitment := o.commitment.map JsonVal.str }

/-- The validator instance node8 passes to the retrying invoker. -/
def validateNode8 (o : Node8Out) : Bool :=
  validateStructuredResponse (encodeNode8Out o)

/-- Encoding of a typed node5retry output as a raw candidate reply. -/
def encodeNode5RetryOut (o : Node5RetryOut) : RawResponse :=
  { response := some (JsonVal.str o.response)
    proceed := some (JsonVal.bool o.proceed)
    commitment := none }

/-- The validator instance node5retry passes to the retrying invoker. -/
def validateNode5Retry (o : Node5RetryOut) : Bool :=
  validateStructuredResponse (encodeNode5RetryOut o)

/-! ## Retrying invoker (modelled from the spec) -/

/-- The distinct error message produced when the retry bound is exhausted;
it references the diagnostic label. -/
def exhaustedMsg (label : String) : String :=
  "Exhausted retries for " ++ label ++ " after maximum attempts"

/-- Whether one attempt outcome (`none` models a thrown model call) is a
candidate the validator accepts. -/
def acceptedBy {α : Type} (validator : α → Bool) : Option α → Bool
  | some v => validator v
  | none => false

/-- Modelled from the spec: the retry loop of `retryLlmCall`
(utils/retry-llm.ts, not under src).  `attempts i` is the outcome of the
i-th invocation of the modelCall thunk; the loop walks attempts until the
validator accepts one or the fuel (the attempt bound) runs out. -/
def retryFrom {α : Type} (attempts : Nat → Option α) (label : String)
    (validator : α → Bool) : Nat → Nat → Except String α
  | _, 0 => Except.error (exhaustedMsg label)
  | i, fuel + 1 =>
    match attempts i with
    | some v =>
      if validator v then Except.ok v
      else retryFrom attempts label validator (i + 1) fuel
    | none => retryFrom attempts label validator (i + 1) fuel

/-- Modelled from the spec: `retryLlmCall(modelCall, label, validator)` of
utils/retry-llm.ts, with the reference bound of 3 attempts passed
explicitly at each call site. -/
def retryLlmCall {α : Type} (attempts : Nat → Option α) (label : String)
    (validator : α → Bool) (maxAttempts : Nat) : Except String α :=
  retryFrom attempts label validator 0 maxAttempts

/-! ## Stage bodies, embedded from the source files

Each stage is split in two around its model call: the part after the
suspension point and after the retrying invoker has produced a validated
output (`...Body`, a pure function of the state, the user input and the
structured output), and the full run.  The `upsertChat` persist executed at
stage entry, before the suspension point, is the head of the effect list of
every full run that performs it in the source. -/

/-- Body of node2 (2.ts) after the model call: append the human turn and
the refined reply, set the routing flag, and when the model supplied a
mood that is neither empty nor the placeholder, write it to the state and
persist it via upsertMood. -/
def node2Body (refine : Refiner) (state : ChatState) (userResponse : String)
    (out : Node2Out) : List Effect × StageUpdate :=
  let humanMessage : Message := ⟨Role.human, userResponse⟩
  let refined := refine out.response state.messages state.user_name
  let aiMessage : Message := ⟨Role.ai, refined⟩
  let base : StageUpdate :=
    { messages := [humanMessage, aiMessage], proceed_node_2 := some out.proceed }
  match out.mood with
  | some m =>
    if m ≠ "" ∧ m ≠ "assessing" then
      ([Effect.upsertMood m], { base with mood := some m })
    else ([], base)
  | none => ([], base)

/-- Full run of node2 (2.ts), given the validated model output: the
upsertChat at stage entry precedes the body effects. -/
def node2 (refine : Refiner) (state : ChatState) (userResponse : String)
    (out : Node2Out) : List Effect × StageUpdate :=
  let r := node2Body refine state userResponse out
  (Effect.upsertChat :: r.1, r.2)

/-- Body of node2retry (2_retry.ts) after the model call: the returned
update always carries the model mood (the zod schema makes it mandatory,
with the placeholder value while still clarifying), but upsertMood is
invoked only when the mood is non-empty and not the placeholder. -/
def node2retryBody (refine : Refiner) (state : ChatState)
    (userResponse : String) (out : Node2RetryOut) : List Effect × StageUpdate :=
  let humanMessage : Message := ⟨Role.human, userResponse⟩
  let refined := refine out.response state.messages state.user_name
  let aiMessage : Message := ⟨Role.ai, refined⟩
  let upd : StageUpdate :=
    { messages := [humanMessage, aiMessage]
      proceed_node_2 := some out.proceed
      mood := some out.mood }
  if out.mood ≠ "" ∧ out.mood ≠ "assessing" then
    ([Effect.upsertMood out.mood], upd)
  else ([], upd)

/-- Full run of node2retry (2_retry.ts), given the validated model output. -/
def node2retry (refine : Refiner) (state : ChatState) (userResponse : String)
    (out : Node2RetryOut) : List Effect × StageUpdate :=
  let r := node2retryBody refine state userResponse out
  (Effect.upsertChat :: r.1, r.2)

/-- Body of node5retry (src/unnamed/part_000) after the model call: append
the two turns and pass the model proceed value through as the routing flag.
The node performs no counting of its own; the 4-interaction cap appears
only as text inside its system prompt. -/
def node5retryBody (refine : Refiner) (state : ChatState)
    (userResponse : String) (out : Node5RetryOut) : List Effect × StageUpdate :=
  let humanMessage : Message := ⟨Role.human, userResponse⟩
  let refined := refine out.response state.messages state.user_name
  let aiMessage : Message := ⟨Role.ai, refined⟩
  ([], { messages := [humanMessage, aiMessage], proceed_node_5 := some out.proceed })

/-- Full run of node5retry, given the validated model output. -/
def node5retry (refine : Refiner) (state : ChatState) (userResponse : String)
    (out : Node5RetryOut) : List Effect × StageUpdate :=
  let r := node5retryBody refine state userResponse out
  (Effect.upsertChat :: r.1, r.2)

/-- Continuation of node5retry from its suspension point: run the model
call through the retrying invoker with the label of the source file, then
the body.  An exhausted invoker propagates as an error with no update. -/
def node5retryKont (refine : Refiner) (state : ChatState)
    (attempts : Nat → Option Node5RetryOut) (userResponse : String) :
    List Effect × Except String StageUpdate :=
  match retryLlmCall attempts "Node 5_retry" validateNode5Retry 3 with
  | Except.ok out =>
    let r := node5retryBody refine state userResponse out
    (r.1, Except.ok r.2)
  | Except.error e => ([], Except.error e)

/-- Body of node8 (src/unnamed/part_001) after the model call: append the
two turns, set the routing flag, and when the model signalled a strong
commitment with a non-empty commitment string, write it to the state and
persist it via upsertCommitment. -/
def node8Body (refine : Refiner) (state : ChatState) (userResponse : String)
    (out : Node8Out) : List Effect × StageUpdate :=
  let humanMessage : Message := ⟨Role.human, userResponse⟩
  let refined := refine out.response state.messages state.user_name
  let aiMessage : Message := ⟨Role.ai, refined⟩
  let base : StageUpdate :=
    { messages := [humanMessage, aiMessage], proceed_node_8 := some out.proceed }
  match out.commitment with
  | some c =>
    if out.proceed = true ∧ c ≠ "" then
      ([Effect.upsertCommitment c], { base with commitment := some c })
    else ([], base)
  | none => ([], base)

/-- Continuation of node8 from its suspension point: run the model call
through the retrying invoker with the label "Node 8", then the body. -/
def node8Kont (refine : Refiner) (state : ChatState)
    (attempts : Nat → Option Node8Out) (userResponse : String) :
    List Effect × Except String StageUpdate :=
  match retryLlmCall attempts "Node 8" validateNode8 3 with
  | Except.ok out =>
    let r := node8Body refine state userResponse out
    (r.1, Except.ok r.2)
  | Except.error e => ([], Except.error e)

/-- Full run of node8 (src/unnamed/part_001), given the stream of model
call attempt outcomes: upsertChat at entry, then the continuation. -/
def node8 (refine : Refiner) (state : ChatState) (userResponse : String)
    (attempts : Nat → Option Node8Out) : List Effect × Except String StageUpdate :=
  let r := node8Kont refine state attempts userResponse
  (Effect.upsertChat :: r.1, r.2)

/-- Full run of node8retry (8_retry.ts), given the validated model output;
its body is identical to the node8 body. -/
def node8retry (refine : Refiner) (state : ChatState) (userResponse : String)
    (out : Node8Out) : List Effect × StageUpdate :=
  let humanMessage : Message := ⟨Role.human, userResponse⟩
  let refined := refine out.response state.messages state.user_name
  let aiMessage : Message := ⟨Role.ai, refined⟩
  let base : StageUpdate :=
    { messages := [humanMessage, aiMessage], proceed_node_8 := some out.proceed }
  match out.commitment with
  | some c =>
    if out.proceed = true ∧ c ≠ "" then
      ([Effect.upsertChat, Effect.upsertCommitment c], { base with commitment := some c })
    else ([Effect.upsertChat], base)
  | none => ([Effect.upsertChat], base)

/-- Full run of node9 (second document of 2.ts, the nudge handler), given
the validated model output: the reminder fields are written only when the
user accepted the reminder, and upsertReminder is invoked only when a
non-empty frequency or date was extracted. -/
def node9 (refine : Refiner) (state : ChatState) (userResponse : String)
    (out : Node9Out) : List Effect × StageUpdate :=
  let humanMessage : Message := ⟨Role.human, userResponse⟩
  let refined := refine out.response state.messages state.user_name
  let aiMessage : Message := ⟨Role.ai, refined⟩
  let base : StageUpdate := { messages := [humanMessage, aiMessage] }
  if out.reminder_accepted = some true then
    let freq : Option String :=
      match out.reminder_frequency with
      | some f => if f ≠ "" then some f else none
      | none => none
    let date : Option String :=
      match out.reminder_date with
      | some d => if d ≠ "" then some d else none
      | none => none
    let upd : StageUpdate :=
      { base with reminder_accepted := some true
                  reminder_frequency := freq
                  reminder_date := date }
    if freq.isSome || date.isSome then
      ([Effect.upsertChat, Effect.upsertReminder freq date], upd)
    else ([Effect.upsertChat], upd)
  else ([Effect.upsertChat], base)

/-- Full run of node1a1 (1a1.ts), the first-time entry stage, given the
validated plain-text model output: it consumes no external input and its
returned update appends only the assistant greeting (the synthetic "Hi"
human message is sent to the model but never recorded). -/
def node1a1 (refine : Refiner) (state : ChatState) (out : String) :
    List Effect × StageUpdate :=
  let refined := refine out state.messages state.user_name
  ([], { messages := [⟨Role.ai, refined⟩] })

/-- Full run of node1a2 (src/unnamed/part_007), given the validated
plain-text model output: upsertChat at entry, then append the human turn
and the refined reply. -/
def node1a2 (refine : Refiner) (state : ChatState) (userResponse : String)
    (out : String) : List Effect × StageUpdate :=
  let humanMessage : Message := ⟨Role.human, userResponse⟩
  let refined := refine out state.messages state.user_name
  ([Effect.upsertChat], { messages := [humanMessage, ⟨Role.ai, refined⟩] })

/-! ## Suspend/resume machinery (modelled from the spec) -/

/-- A stage with one suspension point: the effects it performs before
suspending, the prompt descriptor handed to the interrupt, and the
continuation run with the external input on resume. -/
structure SuspendingStage (α : Type) where
  preEffects : List Effect
  prompt : String
  kont : String → List Effect × α

/-- A suspended stage: the checkpoint records the effects already emitted
and the continuation, so resume replays only from the suspension point. -/
structure Suspended (α : Type) where
  emitted : List Effect
  prompt : String
  kont : String → List Effect × α

/-- Modelled from the spec: suspending a stage (section 4.3) emits its
pre-suspension effects once and checkpoints the continuation. -/
def suspendStage {α : Type} (st : SuspendingStage α) : Suspended α :=
  { emitted := st.preEffects, prompt := st.prompt, kont := st.kont }

/-- Modelled from the spec: resuming with the external input runs only the
continuation; the effects recorded at suspension time are not re-executed,
they are merely part of the cumulative trace. -/
def resumeStage {α : Type} (sp : Suspended α) (input : String) :
    List Effect × α :=
  let r := sp.kont input
  (sp.emitted ++ r.1, r.2)

/-- A full suspend-then-resume execution of a stage. -/
def suspendResumeRun {α : Type} (st : SuspendingStage α) (input : String) :
    List Effect × α :=
  resumeStage (suspendStage st) input

/-- The same stage executed as if the input had been available
synchronously. -/
def syncRun {α : Type} (st : SuspendingStage α) (input : String) :
    List Effect × α :=
  let r := st.kont input
  (st.preEffects ++ r.1, r.2)

/-- node8 as a suspending stage: upsertChat before the interrupt with
prompt "set commitment", then the continuation. -/
def node8SuspStage (refine : Refiner) (state : ChatState)
    (attempts : Nat → Option Node8Out) : SuspendingStage (Except String StageUpdate) :=
  { preEffects := [Effect.upsertChat]
    prompt := "set commitment"
    kont := node8Kont refine state attempts }

/-- node5retry as a suspending stage: upsertChat before the interrupt with
prompt "Please answer", then the continuation. -/
def node5retrySuspStage (refine : Refiner) (state : ChatState)
    (attempts : Nat → Option Node5RetryOut) : SuspendingStage (Except String StageUpdate) :=
  { preEffects := [Effect.upsertChat]
    prompt := "Please answer"
    kont := node5retryKont refine state attempts }

/-! ## Router (modelled from the spec) -/

/-- The conversation graph nodes relevant to the claims. -/
inductive GraphNode
  | n1a1
  | n1a2
  | n2
  | n2retry
  | n3
  | n5retry
  | n6
  | n8
  | n8retry
  | n9
deriving DecidableEq, Repr

/-- Modelled from the spec: the graph wiring is not under src.  Per the
FLOW comment of 2.ts and section 4.5 of the spec, a resolved mood check-in
advances to the mood exploration choice and an unresolved one loops to the
clarification variant. -/
def routeAfterNode2 (proceed : Bool) : GraphNode :=
  if proceed then GraphNode.n3 else GraphNode.n2retry

/-- An update contains none of the derived facts. -/
def noDerivedFacts (u : StageUpdate) : Prop :=
  u.mood = none ∧ u.commitment = none ∧ u.reminder_accepted = none ∧
    u.reminder_frequency = none ∧ u.reminder_date = none

/-! ## Concrete instances used by witnesses and counterexamples -/

/-- A validator over Nat candidates for exercising the retrying invoker. -/
def w2val : Nat → Bool := fun n => decide (7 ≤ n)

/-- Attempt stream: rejected candidate, thrown call, then an accepted
candidate on the third attempt. -/
def w2a : Nat → Option Nat := fun i =>
  if i = 0 then some 3 else if i = 1 then none else some 7

/-- Attempt stream agreeing with `w2a` on the first three attempts and
differing afterwards. -/
def w2b : Nat → Option Nat := fun i =>
  if i = 0 then some 3 else if i = 1 then none else if i = 2 then some 7 else none

/-- Attempt stream whose candidates are never accepted. -/
def w2c : Nat → Option Nat := fun _ => some 3

/-- A concrete starting state for witnesses. -/
def wState : ChatState := { user_name := "Ada" }

/-- A strong-commitment model output for the node8 witnesses. -/
def w8out : Node8Out :=
  { response := "Commitment noted", proceed := true, commitment := some "Walk daily" }

/-- node8 attempt stream: two thrown calls, success on the third. -/
def w8a1 : Nat → Option Node8Out := fun i => if i < 2 then none else some w8out

/-- node8 attempt stream: success on the first call. -/
def w8a2 : Nat → Option Node8Out := fun _ => some w8out

/-- node8 attempt stream in which every call throws. -/
def w8fail : Nat → Option Node8Out := fun _ => none

/-- Clear-mood model output for the node2 witness. -/
def w6clear : Node2Out :=
  { response := "Thank you for sharing", proceed := true, mood := some "overwhelmed" }

/-- Vague-mood model output for the node2 witness. -/
def w6vague : Node2Out :=
  { response := "What does fine mean for you?", proceed := false, mood := none }

/-- A raw reply missing the required response field. -/
def rawMissing : RawResponse :=
  { response := none, proceed := some (JsonVal.bool true), commitment := none }

/-- A raw reply with an empty commitment despite a strong proceed signal. -/
def rawEmptyCommit : RawResponse :=
  { response := some (JsonVal.str "ok")
    proceed := some (JsonVal.bool true)
    commitment := some (JsonVal.str "") }

/-- A fully valid raw reply. -/
def rawValid : RawResponse :=
  { response := some (JsonVal.str "ok")
    proceed := some (JsonVal.bool true)
    commitment := some (JsonVal.str "walk") }

/-- The model output repeated through the node5retry counterexample run:
the disagreement stays unresolved. -/
def c1Out : Node5RetryOut :=
  { response := "Let us explore that further", proceed := false }

/-- The state before the n-th consecutive node5retry execution in which
the model keeps answering unresolved. -/
def c1RunState : Nat → ChatState
  | 0 => { user_name := "Ada" }
  | n + 1 =>
    applyUpdate (c1RunState n)
      (node5retry idRefine (c1RunState n) "I still disagree" c1Out).2

/-- The routing signal emitted by the n-th consecutive node5retry
execution of the counterexample run. -/
def c1Signal (n : Nat) : Option Bool :=
  (node5retry idRefine (c1RunState n) "I still disagree" c1Out).2.proceed_node_5

/-- Start state of the mood clarification episode counterexample. -/
def epState0 : ChatState := { user_name := "Ada" }

/-- node2 output for the vague first answer of the episode. -/
def epVagueOut : Node2Out :=
  { response := "Can you say more about how you feel?", proceed := false, mood := none }

/-- Update of the first stage execution of the episode. -/
def epU1 : StageUpdate := (node2 idRefine epState0 "fine" epVagueOut).2

/-- State after the first stage execution of the episode. -/
def epState1 : ChatState := applyUpdate epState0 epU1

/-- node2retry output while still clarifying: the placeholder mood. -/
def epAssessOut : Node2RetryOut :=
  { response := "What does fine mean for you?", proceed := false, mood := "assessing" }

/-- Update of the second stage execution of the episode. -/
def epU2 : StageUpdate := (node2retry idRefine epState1 "just fine" epAssessOut).2

/-- State after the second stage execution of the episode. -/
def epState2 : ChatState := applyUpdate epState1 epU2

/-- node2retry output once the mood becomes clear. -/
def epClearOut : Node2RetryOut :=
  { response := "Thank you for sharing", proceed := true, mood := "anxious" }

/-- Update of the third stage execution of the episode. -/
def epU3 : StageUpdate := (node2retry idRefine epState2 "anxious I think" epClearOut).2

/-- node2retry output carrying the placeholder, for the C10 witness. -/
def w10out : Node2RetryOut :=
  { response := "Can you help me understand more?", proceed := false, mood := "assessing" }

/-! ## Helper lemmas about the retrying invoker -/

/-- One step of the retry loop on a rejected or thrown attempt moves to the
next attempt. -/
lemma retryFrom_step_rejected {α : Type} (attempts : Nat → Option α)
    (label : String) (validator : α → Bool) (i fuel : Nat)
    (h : acceptedBy validator (attempts i) = false) :
    retryFrom attempts label validator i (fuel + 1) =
      retryFrom attempts label validator (i + 1) fuel := by
  cases ha : attempts i with
  | none => simp [retryFrom, ha]
  | some w =>
    have hw : validator w = false := by
      simpa [acceptedBy, ha] using h
    simp [retryFrom, ha, hw]

/-- One step of the retry loop on an accepted attempt returns it. -/
lemma retryFrom_step_accepted {α : Type} (attempts : Nat → Option α)
    (label : String) (validator : α → Bool) (i fuel : Nat) (v : α)
    (ha : attempts i = some v) (hv : validator v = true) :
    retryFrom attempts label validator i (fuel + 1) = Except.ok v := by
  simp [retryFrom, ha, hv]

/-- If every attempt within the fuel window is rejected or thrown, the
loop fails with the exhausted-retries error. -/
lemma retryFrom_exhausted {α : Type} (attempts : Nat → Option α)
    (label : String) (validator : α → Bool) (fuel : Nat) :
    ∀ i, (∀ j, j < fuel → acceptedBy validator (attempts (i + j)) = false) →
      retryFrom attempts label validator i fuel = Except.error (exhaustedMsg label) := by
  induction fuel with
  | zero => intro i _; rfl
  | succ n ih =>
    intro i h
    rw [retryFrom_step_rejected attempts label validator i n
      (by simpa using h 0 (Nat.succ_pos n))]
    refine ih (i + 1) (fun j hj => ?_)
    have := h (j + 1) (Nat.succ_lt_succ hj)
    have harith : i + (j + 1) = i + 1 + j := by omega
    rwa [harith] at this

/-- If the first accepted candidate within the fuel window sits at offset
k, the loop returns exactly it. -/
lemma retryFrom_first_accepted {α : Type} (attempts : Nat → Option α)
    (label : String) (validator : α → Bool) (fuel : Nat) :
    ∀ i k v, k < fuel →
      (∀ j, j < k → acceptedBy validator (attempts (i + j)) = false) →
      attempts (i + k) = some v → validator v = true →
      retryFrom attempts label validator i fuel = Except.ok v := by
  induction fuel with
  | zero => intro i k v hk; omega
  | succ n ih =>
    intro i k v hk hrej hacc hv
    cases k with
    | zero =>
      exact retryFrom_step_accepted attempts label validator i n v
        (by simpa using hacc) hv
    | succ m =>
      rw [retryFrom_step_rejected attempts label validator i n
        (by simpa using hrej 0 (Nat.succ_pos m))]
      refine ih (i + 1) m v (by omega) (fun j hj => ?_) ?_ hv
      · have := hrej (j + 1) (Nat.succ_lt_succ hj)
        have harith : i + (j + 1) = i + 1 + j := by omega
        rwa [harith] at this
      · have harith : i + (m + 1) = i + 1 + m := by omega
        rwa [harith] at hacc

/-- The retry loop only ever looks at the attempts inside its fuel
window. -/
lemma retryFrom_congr {α : Type} (a b : Nat → Option α) (label : String)
    (validator : α → Bool) (fuel : Nat) :
    ∀ i, (∀ j, j < fuel → a (i + j) = b (i + j)) →
      retryFrom a label validator i fuel = retryFrom b label validator i fuel := by
  induction fuel with
  | zero => intro i _; rfl
  | succ n ih =>
    intro i h
    have h0 : a i = b i := by simpa using h 0 (Nat.succ_pos n)
    have hrest : ∀ j, j < n → a (i + 1 + j) = b (i + 1 + j) := by
      intro j hj
      have := h (j + 1) (Nat.succ_lt_succ hj)
      have harith : i + (j + 1) = i + 1 + j := by omega
      rwa [harith] at this
    cases hb : b i with
    | none => simp [retryFrom, h0, hb, ih (i + 1) hrest]
    | some w =>
      cases hw : validator w with
      | true => simp [retryFrom, h0, hb, hw]
      | false => simp [retryFrom, h0, hb, hw, ih (i + 1) hrest]

/-! ## Helper lemmas about the stage bodies -/

/-- The node8 body always appends exactly the human turn followed by the
refined assistant reply. -/
lemma node8Body_messages (refine : Refiner) (state : ChatState)
    (userResponse : String) (o : Node8Out) :
    (node8Body refine state userResponse o).2.messages =
      [⟨Role.human, userResponse⟩,
       ⟨Role.ai, refine o.response state.messages state.user_name⟩] := by
  cases hc : o.commitment with
  | none => simp [node8Body, hc]
  | some c =>
    by_cases h : o.proceed = true ∧ c ≠ ""
    · simp [node8Body, hc, h]
    · simp [node8Body, hc, h]

/-- The node8 body never emits the transcript persist effect. -/
lemma upsertChat_not_in_node8Body (refine : Refiner) (state : ChatState)
    (userResponse : String) (o : Node8Out) :
    Effect.upsertChat ∉ (node8Body refine state userResponse o).1 := by
  cases hc : o.commitment with
  | none => simp [node8Body, hc]
  | some c =>
    by_cases h : o.proceed = true ∧ c ≠ ""
    · simp [node8Body, hc, h]
    · simp [node8Body, hc, h]

/-- The node8 continuation never emits the transcript persist effect. -/
lemma upsertChat_not_in_node8Kont (refine : Refiner) (state : ChatState)
    (attempts : Nat → Option Node8Out) (x : String) :
    Effect.upsertChat ∉ (node8Kont refine state attempts x).1 := by
  unfold node8Kont
  cases hr : retryLlmCall attempts "Node 8" validateNode8 3 with
  | ok v => simpa using upsertChat_not_in_node8Body refine state x v
  | error e => simp

/-- The node5retry continuation never emits the transcript persist
effect. -/
lemma upsertChat_not_in_node5retryKont (refine : Refiner) (state : ChatState)
    (attempts : Nat → Option Node5RetryOut) (x : String) :
    Effect.upsertChat ∉ (node5retryKont refine state attempts x).1 := by
  unfold node5retryKont
  cases hr : retryLlmCall attempts "Node 5_retry" validateNode5Retry 3 with
  | ok v => simp [node5retryBody]
  | error e => simp

/-! ## Claim theorems -/

/-- C2: the retrying invoker consults only its first three attempt
outcomes (the modelCall is invoked at most N = 3 times), returns the first
candidate the validator accepts unchanged, and when no candidate is
accepted within the bound it fails with the distinct exhausted-retries
error whose message contains the given label. -/
theorem retryLlmCall_bounded_first_accept_exhaust {α : Type}
    (a b : Nat → Option α) (label : String) (validator : α → Bool)
    (k : Nat) (v : α) :
    ((∀ j, j < 3 → a j = b j) →
      retryLlmCall a label validator 3 = retryLlmCall b label validator 3)
    ∧ (k < 3 → (∀ j, j < k → acceptedBy validator (a j) = false) →
        a k = some v → validator v = true →
        retryLlmCall a label validator 3 = Except.ok v)
    ∧ ((∀ j, j < 3 → acceptedBy validator (a j) = false) →
        retryLlmCall a label validator 3 = Except.error (exhaustedMsg label)
        ∧ ∃ pre post, exhaustedMsg label = pre ++ label ++ post) := by
  refine ⟨fun h => ?_, fun hk hrej hacc hv => ?_, fun h => ⟨?_, ?_⟩⟩
  · exact retryFrom_congr a b label validator 3 0 (by simpa using h)
  · exact retryFrom_first_accepted a label validator 3 0 k v hk
      (by simpa using hrej) (by simpa using hacc) hv
  · exact retryFrom_exhausted a label validator 3 0 (by simpa using h)
  · exact ⟨"Exhausted retries for ", " after maximum attempts", rfl⟩

/-- Witness for C2 at concrete attempt streams: the invoker gives the same
result on streams agreeing on the first three attempts, returns the first
accepted candidate 7, and fails with the labelled exhausted error on an
always-rejected stream. -/
theorem retryLlmCall_bounded_first_accept_exhaust_witness :
    retryLlmCall w2a "mood call" w2val 3 = retryLlmCall w2b "mood call" w2val 3
    ∧ retryLlmCall w2a "mood call" w2val 3 = Except.ok 7
    ∧ retryLlmCall w2c "mood call" w2val 3 = Except.error (exhaustedMsg "mood call")
    ∧ exhaustedMsg "mood call" =
        "Exhausted retries for " ++ "mood call" ++ " after maximum attempts" := by
  obtain ⟨hcong, hfirst, _⟩ :=
    retryLlmCall_bounded_first_accept_exhaust w2a w2b "mood call" w2val 2 7
  obtain ⟨_, _, hex⟩ :=
    retryLlmCall_bounded_first_accept_exhaust w2c w2c "mood call" w2val 2 7
  obtain ⟨herr, _⟩ := hex (by decide)
  exact ⟨hcong (by decide),
    hfirst (by decide) (by decide) (by decide) (by decide), herr, rfl⟩

/-- C3: retries inside the retrying invoker repeat only the model call: a
node8 run whose model call fails on the first two attempts and succeeds on
the third is identical, effects and state update alike, to a run that
succeeds immediately, and the two conversation turns are appended exactly
once. -/
theorem node8_retry_transparent (refine : Refiner) (state : ChatState)
    (userResponse : String) (a1 a2 : Nat → Option Node8Out) (v : Node8Out)
    (h1 : acceptedBy validateNode8 (a1 0) = false)
    (h2 : acceptedBy validateNode8 (a1 1) = false)
    (h3 : a1 2 = some v) (hv : validateNode8 v = true)
    (h4 : a2 0 = some v) :
    node8 refine state userResponse a1 = node8 refine state userResponse a2
    ∧ (node8 refine state userResponse a1).2 =
        Except.ok (node8Body refine state userResponse v).2
    ∧ (node8Body refine state userResponse v).2.messages =
        [⟨Role.human, userResponse⟩,
         ⟨Role.ai, refine v.response state.messages state.user_name⟩] := by
  have r1 : retryLlmCall a1 "Node 8" validateNode8 3 = Except.ok v := by
    refine retryFrom_first_accepted a1 "Node 8" validateNode8 3 0 2 v
      (by omega) ?_ (by simpa using h3) hv
    intro j hj
    interval_cases j
    · simpa using h1
    · simpa using h2
  have r2 : retryLlmCall a2 "Node 8" validateNode8 3 = Except.ok v := by
    refine retryFrom_first_accepted a2 "Node 8" validateNode8 3 0 0 v
      (by omega) ?_ (by simpa using h4) hv
    intro j hj
    omega
  refine ⟨?_, ?_, node8Body_messages refine state userResponse v⟩
  · simp [node8, node8Kont, r1, r2]
  · simp [node8, node8Kont, r1]

/-- Witness for C3 at a concrete run: two thrown attempts then success
yields the same node8 outcome as immediate success. -/
theorem node8_retry_transparent_witness :
    node8 idRefine wState "I will walk daily" w8a1 =
      node8 idRefine wState "I will walk daily" w8a2
    ∧ (node8 idRefine wState "I will walk daily" w8a1).2 =
        Except.ok (node8Body idRefine wState "I will walk daily" w8out).2
    ∧ (node8Body idRefine wState "I will walk daily" w8out).2.messages =
        [⟨Role.human, "I will walk daily"⟩,
         ⟨Role.ai, idRefine w8out.response wState.messages wState.user_name⟩] :=
  node8_retry_transparent idRefine wState "I will walk daily" w8a1 w8a2 w8out
    (by decide) (by decide) (by decide) (by decide) (by decide)

/-- C4: when the retrying invoker exhausts its bound, node8 fails the turn
with the labelled error instead of fabricating a result; its result
carries no state update (no message, no routing flag, no derived fact) and
the only effect performed is the transcript persist from stage entry. -/
theorem node8_exhaustion_leaves_state_unmodified (refine : Refiner)
    (state : ChatState) (userResponse : String) (a : Nat → Option Node8Out)
    (h : ∀ j, j < 3 → acceptedBy validateNode8 (a j) = false) :
    node8 refine state userResponse a =
      ([Effect.upsertChat], Except.error (exhaustedMsg "Node 8"))
    ∧ (∀ u, (node8 refine state userResponse a).2 ≠ Except.ok u)
    ∧ (∀ e, e ∈ (node8 refine state userResponse a).1 → e = Effect.upsertChat) := by
  have r : retryLlmCall a "Node 8" validateNode8 3 =
      Except.error (exhaustedMsg "Node 8") :=
    retryFrom_exhausted a "Node 8" validateNode8 3 0 (by simpa using h)
  refine ⟨?_, ?_, ?_⟩
  · simp [node8, node8Kont, r]
  · intro u
    simp [node8, node8Kont, r]
  · intro e he
    simpa [node8, node8Kont, r] using he

/-- Witness for C4 at a concrete run in which every model call throws. -/
theorem node8_exhaustion_leaves_state_unmodified_witness :
    node8 idRefine wState "hello" w8fail =
      ([Effect.upsertChat], Except.error (exhaustedMsg "Node 8")) :=
  (node8_exhaustion_leaves_state_unmodified idRefine wState "hello" w8fail
    (by decide)).1

/-- C5: suspension is transparent for the suspending stages node8 and
node5retry: suspending and later resuming with input x yields exactly the
same effects and ConversationState mutation as a synchronous run with x,
the synchronous run coincides with the stage as coded, and the pre-suspend
upsertChat persist appears exactly once in the cumulative trace. -/
theorem suspend_resume_transparent (refine : Refiner) (state : ChatState)
    (a8 : Nat → Option Node8Out) (a5 : Nat → Option Node5RetryOut) (x : String) :
    suspendResumeRun (node8SuspStage refine state a8) x =
      syncRun (node8SuspStage refine state a8) x
    ∧ suspendResumeRun (node5retrySuspStage refine state a5) x =
      syncRun (node5retrySuspStage refine state a5) x
    ∧ syncRun (node8SuspStage refine state a8) x = node8 refine state x a8
    ∧ (suspendResumeRun (node8SuspStage refine state a8) x).1.count
        Effect.upsertChat = 1
    ∧ (suspendResumeRun (node5retrySuspStage refine state a5) x).1.count
        Effect.upsertChat = 1 := by
  refine ⟨rfl, rfl, rfl, ?_, ?_⟩
  · have h := upsertChat_not_in_node8Kont refine state a8 x
    simp [suspendResumeRun, resumeStage, suspendStage, node8SuspStage,
      List.count_eq_zero.mpr h]
  · have h := upsertChat_not_in_node5retryKont refine state a5 x
    simp [suspendResumeRun, resumeStage, suspendStage, node5retrySuspStage,
      List.count_eq_zero.mpr h]

/-- C1 counterexample: a run of five consecutive node5retry executions in
which the model keeps answering unresolved.  The first four routing
signals are unresolved, yet the fifth execution still emits an unresolved
signal: nothing in the stage forces it to resolved, because the stage
keeps no interaction count and returns the model proceed value unchanged. -/
theorem node5retry_unresolved_fifth_signal :
    (c1Signal 0 = some false ∧ c1Signal 1 = some false
      ∧ c1Signal 2 = some false ∧ c1Signal 3 = some false)
    ∧ c1Signal 4 = some false
    ∧ c1Signal 4 ≠ some true := by
  refine ⟨⟨rfl, rfl, rfl, rfl⟩, rfl, by decide⟩

/-- C1 amended: node5retry passes the model proceed value through
unchanged as its routing signal on every execution, and performs no
counting effect; the 4-interaction cap of the retry loop exists only as an
instruction inside the system prompt, so the code itself never forces a
resolved signal. -/
theorem node5retry_signal_passthrough (refine : Refiner) (state : ChatState)
    (userResponse : String) (out : Node5RetryOut) :
    (node5retry refine state userResponse out).2.proceed_node_5 = some out.proceed
    ∧ (node5retry refine state userResponse out).1 = [Effect.upsertChat]
    ∧ (node5retry refine state userResponse out).2.mood = none
    ∧ (node5retry refine state userResponse out).2.commitment = none :=
  ⟨rfl, rfl, rfl, rfl⟩

/-- C6: mood check-in scenarios of node2.  A clear mood with a resolved
signal is written to the state, persisted via upsertMood exactly once and
the run advances; a vague reply leaves the mood unset, persists nothing and
loops to the clarification variant. -/
theorem node2_mood_checkin_scenarios (refine : Refiner) (state : ChatState)
    (u1 u2 : String) (o1 o2 : Node2Out)
    (h1m : o1.mood = some "overwhelmed") (h1p : o1.proceed = true)
    (h2p : o2.proceed = false) (h2m : o2.mood = none ∨ o2.mood = some "") :
    ((node2 refine state u1 o1).2.mood = some "overwhelmed"
      ∧ (node2 refine state u1 o1).1 =
          [Effect.upsertChat, Effect.upsertMood "overwhelmed"]
      ∧ (node2 refine state u1 o1).1.count (Effect.upsertMood "overwhelmed") = 1
      ∧ (node2 refine state u1 o1).2.proceed_node_2 = some true
      ∧ routeAfterNode2 true = GraphNode.n3)
    ∧ ((node2 refine state u2 o2).2.mood = none
      ∧ (node2 refine state u2 o2).1 = [Effect.upsertChat]
      ∧ (node2 refine state u2 o2).2.proceed_node_2 = some false
      ∧ routeAfterNode2 false = GraphNode.n2retry) := by
  have hcond : ("overwhelmed" : String) ≠ "" ∧ ("overwhelmed" : String) ≠ "assessing" := by
    decide
  constructor
  · refine ⟨?_, ?_, ?_, ?_, by decide⟩
    · simp [node2, node2Body, h1m, hcond]
    · simp [node2, node2Body, h1m, hcond]
    · simp [node2, node2Body, h1m, hcond]
    · simp [node2, node2Body, h1m, h1p, hcond]
  · cases h2m with
    | inl h =>
      refine ⟨?_, ?_, ?_, by decide⟩
      · simp [node2, node2Body, h]
      · simp [node2, node2Body, h]
      · simp [node2, node2Body, h, h2p]
    | inr h =>
      have hempty : ¬(("" : String) ≠ "" ∧ ("" : String) ≠ "assessing") := by
        decide
      refine ⟨?_, ?_, ?_, by decide⟩
      · simp [node2, node2Body, h, hempty]
      · simp [node2, node2Body, h, hempty]
      · simp [node2, node2Body, h, h2p, hempty]

/-- Witness for C6 at concrete model outputs for the answers
"overwhelmed" and "fine". -/
theorem node2_mood_checkin_scenarios_witness :
    ((node2 idRefine wState "really overwhelmed with work" w6clear).2.mood =
        some "overwhelmed"
      ∧ (node2 idRefine wState "really overwhelmed with work" w6clear).1 =
          [Effect.upsertChat, Effect.upsertMood "overwhelmed"]
      ∧ (node2 idRefine wState "really overwhelmed with work" w6clear).1.count
          (Effect.upsertMood "overwhelmed") = 1
      ∧ (node2 idRefine wState "really overwhelmed with work" w6clear).2.proceed_node_2 =
          some true
      ∧ routeAfterNode2 true = GraphNode.n3)
    ∧ ((node2 idRefine wState "fine" w6vague).2.mood = none
      ∧ (node2 idRefine wState "fine" w6vague).1 = [Effect.upsertChat]
      ∧ (node2 idRefine wState "fine" w6vague).2.proceed_node_2 = some false
      ∧ routeAfterNode2 false = GraphNode.n2retry) :=
  node2_mood_checkin_scenarios idRefine wState
    "really overwhelmed with work" "fine" w6clear w6vague
    rfl rfl rfl (Or.inl rfl)

/-- C7 counterexample: the entry stage node1a1 returns an update whose
message delta is only the assistant greeting; no human turn precedes it,
so it is not of the form human-then-assistant that the claim asserts for
every executing stage. -/
theorem node1a1_delta_has_no_human_turn :
    ((node1a1 idRefine wState "Welcome to the coaching app").2.messages.map
        Message.role) = [Role.ai]
    ∧ ((node1a1 idRefine wState "Welcome to the coaching app").2.messages.map
        Message.role) ≠ [Role.human, Role.ai] :=
  ⟨rfl, by decide⟩

/-- C7 amended: the messages sequence is append-only under the state merge
rule (prior entries are never removed or reordered and the length is
monotone), every input-consuming stage appends its human turn followed by
the assistant reply in that order, and the entry stage node1a1 appends
only the assistant greeting. -/
theorem messages_append_only (refine : Refiner) (s : ChatState)
    (u : StageUpdate) (state : ChatState) (input outS : String)
    (o2 : Node2Out) (o2r : Node2RetryOut) (o5 : Node5RetryOut)
    (o8 : Node8Out) (o9 : Node9Out) :
    (applyUpdate s u).messages = s.messages ++ u.messages
    ∧ s.messages.length ≤ (applyUpdate s u).messages.length
    ∧ (applyUpdate s u).messages.take s.messages.length = s.messages
    ∧ ((node2 refine state input o2).2.messages.map Message.role) =
        [Role.human, Role.ai]
    ∧ ((node2retry refine state input o2r).2.messages.map Message.role) =
        [Role.human, Role.ai]
    ∧ ((node5retry refine state input o5).2.messages.map Message.role) =
        [Role.human, Role.ai]
    ∧ ((node8Body refine state input o8).2.messages.map Message.role) =
        [Role.human, Role.ai]
    ∧ ((node8retry refine state input o8).2.messages.map Message.role) =
        [Role.human, Role.ai]
    ∧ ((node9 refine state input o9).2.messages.map Message.role) =
        [Role.human, Role.ai]
    ∧ ((node1a2 refine state input outS).2.messages.map Message.role) =
        [Role.human, Role.ai]
    ∧ ((node1a1 refine state outS).2.messages.map Message.role) = [Role.ai] := by
  refine ⟨rfl, ?_, ?_, ?_, ?_, rfl, ?_, ?_, ?_, rfl, rfl⟩
  · simp [applyUpdate]
  · simp [applyUpdate]
  · cases hm : o2.mood with
    | none => simp [node2, node2Body, hm]
    | some m =>
      by_cases h : m ≠ "" ∧ m ≠ "assessing"
      · simp [node2, node2Body, hm, h]
      · simp [node2, node2Body, hm, h]
  · by_cases h : o2r.mood ≠ "" ∧ o2r.mood ≠ "assessing"
    · simp [node2retry, node2retryBody, h]
    · simp [node2retry, node2retryBody, h]
  · rw [node8Body_messages]
    rfl
  · cases hc : o8.commitment with
    | none => simp [node8retry, hc]
    | some c =>
      by_cases h : o8.proceed = true ∧ c ≠ ""
      · simp [node8retry, hc, h]
      · simp [node8retry, hc, h]
  · by_cases h : o9.reminder_accepted = some true
    · simp only [node9, h, if_true]
      split
      · rfl
      · rfl
    · simp [node9, h]

/-- C8: the structured-shape validator accepts a candidate exactly when
the required response and proceed fields are present and correctly typed,
any commitment field present is a string, and the commitment string is not
empty while the proceed signal indicates a strong commitment; in
particular it rejects candidates missing a required field and candidates
whose commitment is empty under a strong proceed signal. -/
theorem validateStructuredResponse_characterization (r : RawResponse) :
    (validateStructuredResponse r = true ↔
      ((∃ s, r.response = some (JsonVal.str s))
        ∧ (∃ b, r.proceed = some (JsonVal.bool b))
        ∧ (∀ j, r.commitment = some j → ∃ c, j = JsonVal.str c)
        ∧ (r.proceed = some (JsonVal.bool true) →
            r.commitment ≠ some (JsonVal.str ""))))
    ∧ (r.response = none → validateStructuredResponse r = false)
    ∧ (r.proceed = none → validateStructuredResponse r = false)
    ∧ (r.proceed = some (JsonVal.bool true) →
        r.commitment = some (JsonVal.str "") →
        validateStructuredResponse r = false) := by
  obtain ⟨resp, proc, comm⟩ := r
  rcases resp with _ | (s | b | n) <;>
    rcases proc with _ | (s2 | p | n2) <;>
    rcases comm with _ | (s3 | b3 | n3) <;>
    simp [validateStructuredResponse] <;>
    (cases p <;> simp)

/-- Witness for C8 at concrete candidates: a candidate missing the
response field is rejected, an empty commitment under a strong proceed
signal is rejected, and a fully valid candidate is accepted. -/
theorem validateStructuredResponse_characterization_witness :
    validateStructuredResponse rawMissing = false
    ∧ validateStructuredResponse rawEmptyCommit = false
    ∧ validateStructuredResponse rawValid = true := by
  refine ⟨(validateStructuredResponse_characterization rawMissing).2.1 rfl,
    (validateStructuredResponse_characterization rawEmptyCommit).2.2.2 rfl rfl,
    (validateStructuredResponse_characterization rawValid).1.mpr ?_⟩
  exact ⟨⟨"ok", rfl⟩, ⟨true, rfl⟩,
    fun j hj => ⟨"walk", by cases hj; rfl⟩, by decide⟩

/-- C9 counterexample: one mood clarification episode (a vague node2
answer, an unresolved node2retry turn, then a resolving node2retry turn)
in which the mood field is written twice by its owning stage: once with
the placeholder and once with the final value.  The fact is therefore not
set at most once per episode. -/
theorem mood_written_twice_in_episode :
    (epU1.proceed_node_2 = some false ∧ epU2.proceed_node_2 = some false
      ∧ epU3.proceed_node_2 = some true)
    ∧ ([epU1, epU2, epU3].countP (fun u => u.mood.isSome)) = 2
    ∧ epU2.mood = some "assessing"
    ∧ epU3.mood = some "anxious"
    ∧ ¬(([epU1, epU2, epU3].countP (fun u => u.mood.isSome)) ≤ 1) := by
  refine ⟨⟨rfl, rfl, rfl⟩, rfl, rfl, rfl, by decide⟩

/-- C9 amended: each derived fact is written only by its owning stage:
mood only by node2 and node2retry, commitment only by node8 and
node8retry, the reminder fields only by node9; no other embedded stage
ever returns an update containing any derived fact, each owning stage
touches no foreign fact, and a commitment is written only together with a
resolved routing signal.  The at-most-once-per-episode part of the claim
does not hold, since node2retry writes the mood field on every execution,
the placeholder included. -/
theorem derived_fact_ownership (refine : Refiner) (state : ChatState)
    (input outS : String) (o2 : Node2Out) (o2r : Node2RetryOut)
    (o5 : Node5RetryOut) (o8 : Node8Out) (o9 : Node9Out) :
    noDerivedFacts (node1a1 refine state outS).2
    ∧ noDerivedFacts (node1a2 refine state input outS).2
    ∧ noDerivedFacts (node5retry refine state input o5).2
    ∧ (node2 refine state input o2).2.commitment = none
    ∧ (node2 refine state input o2).2.reminder_accepted = none
    ∧ (node2 refine state input o2).2.reminder_frequency = none
    ∧ (node2 refine state input o2).2.reminder_date = none
    ∧ (node2retry refine state input o2r).2.commitment = none
    ∧ (node2retry refine state input o2r).2.reminder_accepted = none
    ∧ (node2retry refine state input o2r).2.reminder_frequency = none
    ∧ (node2retry refine state input o2r).2.reminder_date = none
    ∧ (node8Body refine state input o8).2.mood = none
    ∧ (node8Body refine state input o8).2.reminder_accepted = none
    ∧ (node8Body refine state input o8).2.reminder_frequency = none
    ∧ (node8Body refine state input o8).2.reminder_date = none
    ∧ (node8retry refine state input o8).2.mood = none
    ∧ (node8retry refine state input o8).2.reminder_accepted = none
    ∧ (node8retry refine state input o8).2.reminder_frequency = none
    ∧ (node8retry refine state input o8).2.reminder_date = none
    ∧ (node9 refine state input o9).2.mood = none
    ∧ (node9 refine state input o9).2.commitment = none
    ∧ ((node8Body refine state input o8).2.commitment = none
        ∨ (node8Body refine state input o8).2.proceed_node_8 = some true)
    ∧ ((node8retry refine state input o8).2.commitment = none
        ∨ (node8retry refine state input o8).2.proceed_node_8 = some true) := by
  have hmood2 :
      (node2 refine state input o2).2.commitment = none
      ∧ (node2 refine state input o2).2.reminder_accepted = none
      ∧ (node2 refine state input o2).2.reminder_frequency = none
      ∧ (node2 refine state input o2).2.reminder_date = none := by
    cases hm : o2.mood with
    | none => simp [node2, node2Body, hm]
    | some m =>
      by_cases h : m ≠ "" ∧ m ≠ "assessing"
      · simp [node2, node2Body, hm, h]
      · simp [node2, node2Body, hm, h]
  have hmood2r :
      (node2retry refine state input o2r).2.commitment = none
      ∧ (node2retry refine state input o2r).2.reminder_accepted = none
      ∧ (node2retry refine state input o2r).2.reminder_frequency = none
      ∧ (node2retry refine state input o2r).2.reminder_date = none := by
    by_cases h : o2r.mood ≠ "" ∧ o2r.mood ≠ "assessing"
    · simp [node2retry, node2retryBody, h]
    · simp [node2retry, node2retryBody, h]
  have hc8 :
      (node8Body refine state input o8).2.mood = none
      ∧ (node8Body refine state input o8).2.reminder_accepted = none
      ∧ (node8Body refine state input o8).2.reminder_frequency = none
      ∧ (node8Body refine state input o8).2.reminder_date = none
      ∧ ((node8Body refine state input o8).2.commitment = none
          ∨ (node8Body refine state input o8).2.proceed_node_8 = some true) := by
    cases hcm : o8.commitment with
    | none => simp [node8Body, hcm]
    | some c =>
      by_cases h : o8.proceed = true ∧ c ≠ ""
      · simp [node8Body, hcm, h, h.1]
      · simp [node8Body, hcm, h]
  have hc8r :
      (node8retry refine state input o8).2.mood = none
      ∧ (node8retry refine state input o8).2.reminder_accepted = none
      ∧ (node8retry refine state input o8).2.reminder_frequency = none
      ∧ (node8retry refine state input o8).2.reminder_date = none
      ∧ ((node8retry refine state input o8).2.commitment = none
          ∨ (node8retry refine state input o8).2.proceed_node_8 = some true) := by
    cases hcm : o8.commitment with
    | none => simp [node8retry, hcm]
    | some c =>
      by_cases h : o8.proceed = true ∧ c ≠ ""
      · simp [node8retry, hcm, h, h.1]
      · simp [node8retry, hcm, h]
  have h9 :
      (node9 refine state input o9).2.mood = none
      ∧ (node9 refine state input o9).2.commitment = none := by
    by_cases h : o9.reminder_accepted = some true
    · simp only [node9, h, if_true]
      constructor
      · split
        · rfl
        · rfl
      · split
        · rfl
        · rfl
    · simp [node9, h]
  exact ⟨⟨rfl, rfl, rfl, rfl, rfl⟩, ⟨rfl, rfl, rfl, rfl, rfl⟩,
    ⟨rfl, rfl, rfl, rfl, rfl⟩,
    hmood2.1, hmood2.2.1, hmood2.2.2.1, hmood2.2.2.2,
    hmood2r.1, hmood2r.2.1, hmood2r.2.2.1, hmood2r.2.2.2,
    hc8.1, hc8.2.1, hc8.2.2.1, hc8.2.2.2.1,
    hc8r.1, hc8r.2.1, hc8r.2.2.1, hc8r.2.2.2.1,
    h9.1, h9.2, hc8.2.2.2.2, hc8r.2.2.2.2⟩

/-- C10: the node2retry update always carries the model mood, the
placeholder included, while the upsertMood persistence effect is emitted
exactly when the mood is non-empty and different from the placeholder; in
particular the placeholder value "assessing" is never persisted. -/
theorem node2retry_assessing_not_persisted (refine : Refiner)
    (state : ChatState) (input : String) (out : Node2RetryOut) :
    (node2retry refine state input out).2.mood = some out.mood
    ∧ (Effect.upsertMood out.mood ∈ (node2retry refine state input out).1 ↔
        (out.mood ≠ "" ∧ out.mood ≠ "assessing"))
    ∧ Effect.upsertMood "assessing" ∉ (node2retry refine state input out).1 := by
  by_cases h : out.mood ≠ "" ∧ out.mood ≠ "assessing"
  · refine ⟨by simp [node2retry, node2retryBody, h], ?_, ?_⟩
    · simp [node2retry, node2retryBody, h]
    · simp [node2retry, node2retryBody, h, h.2.symm]
  · refine ⟨by simp [node2retry, node2retryBody, h], ?_, ?_⟩
    · simp [node2retry, node2retryBody, h]
    · simp [node2retry, node2retryBody, h]

/-- Witness for C10 at the placeholder output: the update carries the
placeholder mood while no upsertMood effect is emitted. -/
theorem node2retry_assessing_not_persisted_witness :
    (node2retry idRefine epState1 "just fine" w10out).2.mood = some "assessing"
    ∧ Effect.upsertMood "assessing" ∉
        (node2retry idRefine epState1 "just fine" w10out).1 := by
  obtain ⟨h1, _, h3⟩ :=
    node2retry_assessing_not_persisted idRefine epState1 "just fine" w10out
  exact ⟨h1, h3⟩

end ChatbotSpec
